import Mathlib

/-!
Verification development for the Salesforce credential/session gateway.

The repository contains two backend variants of the gateway (a JWT
bearer-flow file and a refresh-token-flow file), plus UI code. We embed
the gateway shallowly:

* HTTP traffic is an oracle: a function from a global call counter to a
  response. The `World` state threads the module-level mutable state
  (`tokenCache`), the simulated clock (`Date.now()`), and observation
  counters (network calls made, cache invalidations, refresh runs,
  sleep pauses, the bearer token and query string attached to each data
  call).
* JavaScript runs resolver bodies one at a time on a single event loop,
  so outside a `getSalesforceAccessToken` call `tokenPromise` is always
  `null`; the sequential embedding therefore elides it. The concurrency
  claim about `tokenPromise` single-flighting is settled on a separate
  event-loop model (`FlightState`) in which the synchronous prefix of
  each `get()` call runs atomically, as the event loop guarantees.
-/

namespace Salesforce

/-! ## String utilities mirroring the JavaScript semantics -/

/-- One character of `s.replace(/'/g, "\\'")`: a quote becomes
backslash-quote, anything else is kept. -/
def escChar (c : Char) : List Char :=
  if c = '\'' then ['\\', '\''] else [c]

/-- `s.replace(/'/g, "\\'")` on character lists. -/
def escList : List Char → List Char
  | [] => []
  | c :: cs => escChar c ++ escList cs

/-- `s.replace(/'/g, "\\'")` as used for every interpolated SOQL literal. -/
def escapeQuotes (s : String) : String :=
  String.mk (escList s.toList)

/-- Does `pat` occur at the head of `l`? -/
def matchSeq : List Char → List Char → Bool
  | [], _ => true
  | _ :: _, [] => false
  | a :: as, b :: bs => a == b && matchSeq as bs

/-- Does `pat` occur anywhere in `l`? -/
def containsSeq (pat : List Char) : List Char → Bool
  | [] => matchSeq pat []
  | c :: cs => matchSeq pat (c :: cs) || containsSeq pat cs

/-- JavaScript `s.includes(pat)`. -/
def containsSub (s pat : String) : Bool :=
  containsSeq pat.toList s.toList

/-- Scanner for a single-quoted SOQL string literal body: `true` iff an
unescaped quote occurs, i.e. the literal terminates before its intended
end. A backslash consumes the following character. -/
def closesEarly : List Char → Bool
  | [] => false
  | c :: rest =>
    if c = '\\' then
      match rest with
      | [] => false
      | _ :: rest2 => closesEarly rest2
    else if c = '\'' then true
    else closesEarly rest

/-! ## Data model -/

/-- Response of the token endpoint: HTTP status plus, on success, the
parsed JSON fields the code reads. -/
structure AuthResp where
  ok : Bool
  status : Nat
  body : String
  access_token : String
  instance_url : String
deriving DecidableEq, Repr

/-- Parsed JSON body of a data (SOQL) response, as read by the code:
`data.records` and `data.totalSize`, either of which may be absent. -/
structure QueryData where
  records : Option (List String)
  totalSize : Option Nat
deriving DecidableEq, Repr

/-- Response of a data endpoint call. -/
structure DataResp where
  ok : Bool
  status : Nat
  body : String
  json : QueryData
deriving DecidableEq, Repr

/-- The module-level `tokenCache` entry:
`{ access_token, instance_url, expiresAt }`. -/
structure CachedToken where
  access_token : String
  instance_url : String
  expiresAt : Nat
deriving DecidableEq, Repr

/-- The value returned to gateway callers:
`{ access_token, instance_url }`. -/
structure AuthResult where
  access_token : String
  instance_url : String
deriving DecidableEq, Repr

/-- Network environment: the response to the n-th authentication call
and to the n-th data call of the run. -/
structure Oracle where
  authAt : Nat → AuthResp
  dataAt : Nat → DataResp

/-- Process state plus observation log. `now` is `Date.now()` in
milliseconds; sleeps advance it. `refreshRuns` counts invocations of the
retry-wrapped authenticator (one single-flight refresh each);
`invalidations` counts explicit `tokenCache = null` on 401; `pauses`
logs every retry sleep; `dataTokens` and `dataQueries` log the bearer
token and the query string attached to each outbound data call. -/
structure World where
  now : Nat
  cache : Option CachedToken
  authCalls : Nat
  dataCalls : Nat
  refreshRuns : Nat
  invalidations : Nat
  pauses : List Nat
  dataTokens : List String
  dataQueries : List String
deriving DecidableEq, Repr

/-- A fresh world at time `now` with the given cache contents. -/
def World.init (now : Nat) (cache : Option CachedToken) : World :=
  ⟨now, cache, 0, 0, 0, 0, [], [], []⟩

/-- `api.fetch` on a data URL: consumes the next data response, logging
the query string and the bearer token that were attached. -/
def apiFetchData (o : Oracle) (soql tok : String) (w : World) :
    DataResp × World :=
  (o.dataAt w.dataCalls,
    { w with
        dataCalls := w.dataCalls + 1
        dataTokens := w.dataTokens ++ [tok]
        dataQueries := w.dataQueries ++ [soql] })

/-- 55 minutes in milliseconds: `55 * 60 * 1000`. -/
def cacheMarginMs : Nat := 55 * 60 * 1000

/-! ## JWT bearer-flow variant -/

namespace Jwt

/-- The three Forge environment variables of the JWT strategy; `none`
models an unset variable. -/
structure Env where
  clientId : Option String
  username : Option String
  privateKey : Option String
deriving DecidableEq, Repr

/-- `getJwtCredentials()`: collects every unset variable (JS falsiness:
unset or empty), then throws one error naming all of them, else returns
the triple. Pure: no network access. -/
def getJwtCredentials (e : Env) : Except String (String × String × String) :=
  let missing :=
    (if e.clientId.getD ("") = "" then ["SALESFORCE_CLIENT_ID"] else []) ++
    (if e.username.getD ("") = "" then ["SALESFORCE_USERNAME"] else []) ++
    (if e.privateKey.getD ("") = "" then ["SALESFORCE_JWT_PRIVATE_KEY"] else [])
  if missing.length > 0 then
    .error ("Missing required Forge variables: " ++ String.intercalate (", ") missing)
  else
    .ok (e.clientId.getD (""), e.username.getD (""), e.privateKey.getD (""))

/-- `authenticateWithJwt()`: loads credentials (throwing before any
network call when some are unset), signs the assertion (pure, elided),
POSTs to the token endpoint, and returns `{access_token, instance_url}`
on success or throws the response text. -/
def authenticateWithJwt (e : Env) (o : Oracle) (w : World) :
    Except String AuthResult × World :=
  match getJwtCredentials e with
  | .error m => (.error m, w)
  | .ok _ =>
    let r := o.authAt w.authCalls
    let w1 := { w with authCalls := w.authCalls + 1 }
    if r.ok then (.ok ⟨r.access_token, r.instance_url⟩, w1)
    else (.error r.body, w1)

/-- `reauthenticate(retries = 2)`: on success writes the cache with
`expiresAt = Date.now() + 55 * 60 * 1000` and returns the auth result;
on any failure — the source inspects nothing about the error — if
retries remain it sleeps 1 second and recurses, otherwise it clears the
cache and rethrows the last error. (The source's single body with
`if (retries > 0)` is split into the two `Nat` cases.) -/
def reauthenticate (e : Env) (o : Oracle) : Nat → World → Except String AuthResult × World
  | 0, w =>
    match authenticateWithJwt e o w with
    | (.ok auth, w1) =>
      (.ok auth,
        { w1 with cache := some ⟨auth.access_token, auth.instance_url, w1.now + cacheMarginMs⟩ })
    | (.error err, w1) => (.error err, { w1 with cache := none })
  | rr + 1, w =>
    match authenticateWithJwt e o w with
    | (.ok auth, w1) =>
      (.ok auth,
        { w1 with cache := some ⟨auth.access_token, auth.instance_url, w1.now + cacheMarginMs⟩ })
    | (.error _, w1) =>
      reauthenticate e o rr
        { w1 with now := w1.now + 1000, pauses := w1.pauses ++ [1000] }

/-- `getSalesforceAccessToken()`: return the cached token while
`Date.now() < expiresAt`; otherwise run one refresh
(`reauthenticate()` with 2 retries). The in-flight-promise join is
modelled separately (`FlightState`); sequentially it is always `null`
here. -/
def getSalesforceAccessToken (e : Env) (o : Oracle) (w : World) :
    Except String AuthResult × World :=
  match w.cache with
  | some tc =>
    if w.now < tc.expiresAt then
      (.ok ⟨tc.access_token, tc.instance_url⟩, w)
    else
      reauthenticate e o 2 { w with refreshRuns := w.refreshRuns + 1 }
  | none => reauthenticate e o 2 { w with refreshRuns := w.refreshRuns + 1 }

/-- The `disconnectSalesforce` resolver: `tokenCache = null`,
unconditionally. -/
def disconnectSalesforce (w : World) : World :=
  { w with cache := none }

/-- `executeSalesforceQuery(soql)` of the JWT file: obtain a token,
issue the data call with it; on a 401 clear the cache, obtain a fresh
token, reissue the call exactly once and return that second outcome; on
any other non-success status throw the body with no retry. -/
def executeSalesforceQuery (e : Env) (o : Oracle) (soql : String) (w : World) :
    Except String QueryData × World :=
  match getSalesforceAccessToken e o w with
  | (.error m, w1) => (.error m, w1)
  | (.ok auth, w1) =>
    let (r, w2) := apiFetchData o soql auth.access_token w1
    if r.ok then (.ok r.json, w2)
    else if r.status = 401 then
      match
        getSalesforceAccessToken e o
          { w2 with cache := none, invalidations := w2.invalidations + 1 } with
      | (.error m, w4) => (.error m, w4)
      | (.ok auth2, w4) =>
        let (r2, w5) := apiFetchData o soql auth2.access_token w4
        if r2.ok then (.ok r2.json, w5) else (.error r2.body, w5)
    else (.error r.body, w2)

end Jwt

/-! ## Refresh-token-flow variant -/

namespace RefreshFlow

/-- The three Forge environment variables of the refresh-token
strategy. The source never validates their presence. -/
structure Env where
  clientId : Option String
  clientSecret : Option String
  refreshToken : Option String
deriving DecidableEq, Repr

/-- `refreshAccessToken(retries = 2)`: POSTs the refresh-token grant
(no credential validation first), and on failure retries — after a
1-second sleep — only when `status === 400` and the body contains
"retry your request", up to `retries` more times; any other failure is
thrown immediately as `Salesforce Auth Failed: <body>`. On success it
writes the cache with `expiresAt = Date.now() + 55 * 60 * 1000`. The
cache is never touched on failure. (The source's single body with
`retries > 0 && ...` is split into the two `Nat` cases.) -/
def refreshAccessToken (e : Env) (o : Oracle) : Nat → World → Except String AuthResult × World
  | 0, w =>
    let r := o.authAt w.authCalls
    let w1 := { w with authCalls := w.authCalls + 1 }
    if r.ok then
      (.ok ⟨r.access_token, r.instance_url⟩,
        { w1 with cache := some ⟨r.access_token, r.instance_url, w1.now + cacheMarginMs⟩ })
    else
      (.error ("Salesforce Auth Failed: " ++ r.body), w1)
  | rr + 1, w =>
    let r := o.authAt w.authCalls
    let w1 := { w with authCalls := w.authCalls + 1 }
    if r.ok then
      (.ok ⟨r.access_token, r.instance_url⟩,
        { w1 with cache := some ⟨r.access_token, r.instance_url, w1.now + cacheMarginMs⟩ })
    else if r.status = 400 && containsSub r.body ("retry your request") then
      refreshAccessToken e o rr
        { w1 with now := w1.now + 1000, pauses := w1.pauses ++ [1000] }
    else
      (.error ("Salesforce Auth Failed: " ++ r.body), w1)

/-- `getSalesforceAccessToken()` of the refresh-token file: same cache
check as the JWT file, refreshing with `refreshAccessToken()`. -/
def getSalesforceAccessToken (e : Env) (o : Oracle) (w : World) :
    Except String AuthResult × World :=
  match w.cache with
  | some tc =>
    if w.now < tc.expiresAt then
      (.ok ⟨tc.access_token, tc.instance_url⟩, w)
    else
      refreshAccessToken e o 2 { w with refreshRuns := w.refreshRuns + 1 }
  | none => refreshAccessToken e o 2 { w with refreshRuns := w.refreshRuns + 1 }

/-- `executeSalesforceQuery(soql)` of the refresh-token file: obtain a
token, issue the data call; ANY non-success status — including 401 — is
thrown as `Salesforce Query Failed (<status>): <body>` with no cache
invalidation and no retry. -/
def executeSalesforceQuery (e : Env) (o : Oracle) (soql : String) (w : World) :
    Except String QueryData × World :=
  match getSalesforceAccessToken e o w with
  | (.error m, w1) => (.error m, w1)
  | (.ok auth, w1) =>
    let (r, w2) := apiFetchData o soql auth.access_token w1
    if r.ok then (.ok r.json, w2)
    else
      (.error ("Salesforce Query Failed (" ++ toString r.status ++ "): " ++ r.body), w2)

end RefreshFlow

/-! ## Query construction (`querySalesforce` resolver)

The query-building code is character-identical in the two backend
files; `buildSoql` is the shared translation, and each namespace wires
it to its own executor exactly as its file does. -/

/-- One entry of `OBJECT_CONFIG`. `filterFields` entries are
`(field, label, type)`. -/
structure ObjectConfig where
  fields : List String
  columns : List String
  searchField : String
  filterFields : List (String × String × String)
deriving DecidableEq, Repr

/-- The `OBJECT_CONFIG` table (identical in both backend files);
`none` models an object type absent from the table. -/
def OBJECT_CONFIG : String → Option ObjectConfig
  | "Account" =>
    some ⟨["Id", "Name", "Industry", "Type", "Phone"],
      ["Name", "Industry", "Type", "Phone"], "Name",
      [("Industry", "Industry", "picklist"), ("Type", "Type", "picklist")]⟩
  | "Contact" =>
    some ⟨["Id", "FirstName", "LastName", "Email", "Phone", "Account.Name"],
      ["First Name", "Last Name", "Email", "Phone", "Account"], "LastName", []⟩
  | "Opportunity" =>
    some ⟨["Id", "Name", "StageName", "Amount", "CloseDate", "Account.Name"],
      ["Name", "Stage", "Amount", "Close Date", "Account"], "Name",
      [("StageName", "Stage", "picklist")]⟩
  | _ => none

/-- The resolver payload; `none` models an omitted property, so JS
destructuring defaults apply. `filters` keeps the object's insertion
order, as `Object.entries` does. -/
structure Payload where
  objectType : String
  search : Option String
  filters : Option (List (String × String))
  limit : Option Nat
  offset : Option Nat
deriving DecidableEq, Repr

/-- What a resolver hands back to the bridge: either the success shape
`{ records, totalSize }` or the catch-all `{ error: true, message }`. -/
inductive QueryResult where
  | success (records : List String) (totalSize : Nat)
  | failure (message : String)
deriving DecidableEq, Repr

/-- The `where` array built by `querySalesforce`: the LIKE clause on
the configured search field when `search` is truthy, then one equality
clause per truthy filter value, in iteration order. -/
def whereClausesOf (cfg : ObjectConfig) (search : String)
    (filters : List (String × String)) : List String :=
  (if search = "" then []
    else [cfg.searchField ++ " LIKE '%" ++ escapeQuotes search ++ "%'"]) ++
  (filters.filter (fun fv => fv.2 ≠ "")).map
    (fun fv => fv.1 ++ " = '" ++ escapeQuotes fv.2 ++ "'")

/-- The SOQL string assembled by `querySalesforce` once the config is
found: `SELECT <fields> FROM <objectType>`, a `WHERE` of the clause
list when non-empty, then
`ORDER BY <searchField> ASC LIMIT <limit> OFFSET <offset>`. -/
def buildSoql (cfg : ObjectConfig) (objectType search : String)
    (filters : List (String × String)) (lim off : Nat) : String :=
  let whereClauses := whereClausesOf cfg search filters
  let base := "SELECT " ++ String.intercalate (", ") cfg.fields ++ " FROM " ++ objectType
  let withWhere :=
    if whereClauses = [] then base
    else base ++ " WHERE " ++ String.intercalate (" AND ") whereClauses
  withWhere ++ " ORDER BY " ++ cfg.searchField ++ " ASC LIMIT " ++
    toString lim ++ " OFFSET " ++ toString off

namespace Jwt

/-- The `querySalesforce` resolver of the JWT file: apply destructuring
defaults, look up the config (throwing `Unsupported object: <name>`
before any network call when absent), build the SOQL, run the executor,
and shape the success as `{ records: data.records || [],
totalSize: data.totalSize || 0 }`; every thrown error is caught into
the failure shape. -/
def querySalesforce (e : Env) (o : Oracle) (p : Payload) (w : World) :
    QueryResult × World :=
  match OBJECT_CONFIG p.objectType with
  | none => (.failure ("Unsupported object: " ++ p.objectType), w)
  | some cfg =>
    let soql := buildSoql cfg p.objectType (p.search.getD ("")) (p.filters.getD [])
      (p.limit.getD 50) (p.offset.getD 0)
    match executeSalesforceQuery e o soql w with
    | (.ok data, w1) => (.success (data.records.getD []) (data.totalSize.getD 0), w1)
    | (.error m, w1) => (.failure m, w1)

end Jwt

namespace RefreshFlow

/-- The `querySalesforce` resolver of the refresh-token file — same
construction, wired to this file's executor. -/
def querySalesforce (e : Env) (o : Oracle) (p : Payload) (w : World) :
    QueryResult × World :=
  match OBJECT_CONFIG p.objectType with
  | none => (.failure ("Unsupported object: " ++ p.objectType), w)
  | some cfg =>
    let soql := buildSoql cfg p.objectType (p.search.getD ("")) (p.filters.getD [])
      (p.limit.getD 50) (p.offset.getD 0)
    match executeSalesforceQuery e o soql w with
    | (.ok data, w1) => (.success (data.records.getD []) (data.totalSize.getD 0), w1)
    | (.error m, w1) => (.failure m, w1)

end RefreshFlow

/-! ## Event-loop model of the in-flight-promise single-flight

JavaScript runs the synchronous prefix of `getSalesforceAccessToken` —
the cache check, the `tokenPromise` check, and the assignment
`tokenPromise = reauthenticate()` — atomically between `await` points.
`FlightState` captures exactly that prefix; a caller either returns the
cached token or ends up attached to a refresh run identified by the
promise it awaits. While the run is in flight the cache and `inflight`
fields cannot change (only the run's completion, a later event-loop
turn, changes them). -/

/-- Event-loop visible state: the cache, the identity of the in-flight
refresh promise (if any), a fresh-id counter, and the log of refresh
runs started. -/
structure FlightState where
  cache : Option CachedToken
  inflight : Option Nat
  nextId : Nat
  startedRuns : List Nat
deriving DecidableEq, Repr

/-- What one `get()` caller is left holding after its synchronous
prefix: the cached token, or attachment to refresh run `runId`. -/
inductive GetOutcome where
  | cached (t : AuthResult)
  | attached (runId : Nat)
deriving DecidableEq, Repr

/-- The stale path: join the existing in-flight promise, or create a
new one (`tokenPromise = reauthenticate()`), recording the started
run. -/
def joinOrStart (s : FlightState) : GetOutcome × FlightState :=
  match s.inflight with
  | some id => (.attached id, s)
  | none =>
    (.attached s.nextId,
      { s with
          inflight := some s.nextId
          nextId := s.nextId + 1
          startedRuns := s.startedRuns ++ [s.nextId] })

/-- The synchronous prefix of `getSalesforceAccessToken` for a caller
arriving at time `now`. -/
def getSync (now : Nat) (s : FlightState) : GetOutcome × FlightState :=
  match s.cache with
  | some tc =>
    if now < tc.expiresAt then (.cached ⟨tc.access_token, tc.instance_url⟩, s)
    else joinOrStart s
  | none => joinOrStart s

/-- Run the synchronous prefixes of a batch of callers in event-loop
order (all before the refresh promise settles). -/
def runCallers : List Nat → FlightState → List GetOutcome × FlightState
  | [], s => ([], s)
  | t :: ts, s =>
    let (o1, s1) := getSync t s
    let (os, s2) := runCallers ts s1
    (o1 :: os, s2)

/-- The value a caller finally receives once the promise it awaits
settles: `res` maps each refresh run to its single settled outcome,
fanned out to every attached caller. -/
def callerFinal (res : Nat → Except String AuthResult) : GetOutcome → Except String AuthResult
  | .cached t => .ok t
  | .attached id => res id

/-- Is the cache stale (absent or expired) for a caller at time `t`? -/
def staleAt (t : Nat) (c : Option CachedToken) : Bool :=
  match c with
  | some tc => !(t < tc.expiresAt)
  | none => true

/-! ## Concrete fixtures shared by witnesses and counterexamples -/

/-- A successful token-endpoint response. -/
def respOk (tok url : String) : AuthResp := ⟨true, 200, "", tok, url⟩

/-- A failed token-endpoint response. -/
def respFail (st : Nat) (b : String) : AuthResp := ⟨false, st, b, "", ""⟩

/-- A successful data response. -/
def dataOk (j : QueryData) : DataResp := ⟨true, 200, "", j⟩

/-- A failed data response. -/
def dataFail (st : Nat) (b : String) : DataResp := ⟨false, st, b, ⟨none, none⟩⟩

/-- Every call succeeds. -/
def oracleAllOk : Oracle :=
  ⟨fun _ => respOk ("tokA") ("https://inst.example"), fun _ => dataOk ⟨some ["r1"], some 1⟩⟩

/-- Authentication always fails with a plain 500 (no transient marker). -/
def oracleAuthBoom : Oracle :=
  ⟨fun _ => respFail 500 ("boom"), fun _ => dataOk ⟨none, none⟩⟩

/-- Authentication always fails with the transient 400 marker. -/
def oracleAuthTransient : Oracle :=
  ⟨fun _ => respFail 400 ("unknown_error, retry your request"), fun _ => dataOk ⟨none, none⟩⟩

/-- Auth succeeds; the first data call is a 401, later ones succeed. -/
def oracle401ThenOk : Oracle :=
  ⟨fun _ => respOk ("tokNew") ("https://inst.example"),
    fun n => if n = 0 then dataFail 401 ("Session expired") else dataOk ⟨some [], some 0⟩⟩

/-- Auth succeeds; data calls fail with a 500. -/
def oracleData500 : Oracle :=
  ⟨fun _ => respOk ("tokA") ("https://inst.example"), fun _ => dataFail 500 ("INVALID_FIELD")⟩

/-- Auth succeeds; data calls succeed with a JSON body that has neither
`records` nor `totalSize`. -/
def oracleDataBare : Oracle :=
  ⟨fun _ => respOk ("tokA") ("https://inst.example"), fun _ => dataOk ⟨none, none⟩⟩

/-- Fully configured JWT environment. -/
def envJwtFull : Jwt.Env := ⟨some ("cid"), some ("user@co"), some ("pem")⟩

/-- JWT environment missing the username and the private key. -/
def envJwtMissingTwo : Jwt.Env := ⟨some ("cid"), none, none⟩

/-- Fully configured refresh-token environment. -/
def envRefFull : RefreshFlow.Env := ⟨some ("cid"), some ("secret"), some ("rtok")⟩

/-- Refresh-token environment with only one of three variables set. -/
def envRefMissingTwo : RefreshFlow.Env := ⟨some ("cid"), none, none⟩

/-- An expired cache entry (relative to the times used below). -/
def staleTok : CachedToken := ⟨"oldTok", "https://old.example", 100⟩

/-- A fresh cache entry. -/
def freshTok : CachedToken := ⟨"liveTok", "https://live.example", 1000000⟩

/-! ## Helper lemmas -/

/-- One-step unfolding of the literal scanner. -/
theorem closesEarly_cons (c : Char) (l : List Char) :
    closesEarly (c :: l) =
      (if c = '\\' then
        match l with
        | [] => false
        | _ :: l2 => closesEarly l2
      else if c = '\'' then true
      else closesEarly l) := by
  cases l <;> rfl

/-- Scanning the escaped image of a backslash-free input never finds an
unescaped quote; scanning continues into the tail in alignment. -/
theorem closesEarly_escList_append (t : List Char) :
    ∀ l : List Char, '\\' ∉ l → closesEarly (escList l ++ t) = closesEarly t := by
  intro l
  induction l with
  | nil => intro _; rfl
  | cons c cs ih =>
    intro h
    have hc : c ≠ '\\' := by
      intro hcc
      exact h (hcc ▸ List.mem_cons_self c cs)
    have hcs : '\\' ∉ cs := fun hm => h (List.mem_cons_of_mem c hm)
    by_cases hq : c = '\''
    · subst hq
      rw [show escList ('\'' :: cs) ++ t = '\\' :: '\'' :: (escList cs ++ t) from rfl,
        closesEarly_cons, if_pos rfl]
      exact ih hcs
    · rw [show escList (c :: cs) = escChar c ++ escList cs from rfl, List.append_assoc,
        show escChar c = [c] from by simp [escChar, hq],
        List.singleton_append, closesEarly_cons, if_neg hc, if_neg hq]
      exact ih hcs

/-- With credentials present and a successful token response, one
authentication attempt consumes exactly one network call. -/
theorem jwt_auth_ok_step (e : Jwt.Env) (o : Oracle) (w : World)
    (cr : String × String × String)
    (hcred : Jwt.getJwtCredentials e = .ok cr)
    (hok : (o.authAt w.authCalls).ok = true) :
    Jwt.authenticateWithJwt e o w =
      (.ok ⟨(o.authAt w.authCalls).access_token, (o.authAt w.authCalls).instance_url⟩,
        { w with authCalls := w.authCalls + 1 }) := by
  simp [Jwt.authenticateWithJwt, hcred, hok]

/-- With credentials present and a failed token response, one
authentication attempt consumes one network call and throws the body. -/
theorem jwt_auth_fail_step (e : Jwt.Env) (o : Oracle) (w : World)
    (cr : String × String × String)
    (hcred : Jwt.getJwtCredentials e = .ok cr)
    (hfail : (o.authAt w.authCalls).ok = false) :
    Jwt.authenticateWithJwt e o w =
      (.error (o.authAt w.authCalls).body, { w with authCalls := w.authCalls + 1 }) := by
  simp [Jwt.authenticateWithJwt, hcred, hfail]

/-- A successful attempt makes `reauthenticate` return the token and
write the cache with a 55-minute expiry, at any remaining-retry count. -/
theorem jwt_reauth_ok (e : Jwt.Env) (o : Oracle) (w : World)
    (cr : String × String × String) (rr : Nat)
    (hcred : Jwt.getJwtCredentials e = .ok cr)
    (hok : (o.authAt w.authCalls).ok = true) :
    Jwt.reauthenticate e o rr w =
      (.ok ⟨(o.authAt w.authCalls).access_token, (o.authAt w.authCalls).instance_url⟩,
        { w with
            authCalls := w.authCalls + 1
            cache := some ⟨(o.authAt w.authCalls).access_token,
              (o.authAt w.authCalls).instance_url, w.now + cacheMarginMs⟩ }) := by
  cases rr <;> simp [Jwt.reauthenticate, jwt_auth_ok_step e o w cr hcred hok]

/-- With no retries left, a failed attempt clears the cache and throws
the last error. -/
theorem jwt_reauth_zero_fail (e : Jwt.Env) (o : Oracle) (w : World)
    (cr : String × String × String)
    (hcred : Jwt.getJwtCredentials e = .ok cr)
    (hfail : (o.authAt w.authCalls).ok = false) :
    Jwt.reauthenticate e o 0 w =
      (.error (o.authAt w.authCalls).body,
        { w with authCalls := w.authCalls + 1, cache := none }) := by
  simp [Jwt.reauthenticate, jwt_auth_fail_step e o w cr hcred hfail]

/-- With retries left, ANY failed attempt — transient or not — sleeps
one second and recurses. -/
theorem jwt_reauth_succ_fail (e : Jwt.Env) (o : Oracle) (w : World)
    (cr : String × String × String) (rr : Nat)
    (hcred : Jwt.getJwtCredentials e = .ok cr)
    (hfail : (o.authAt w.authCalls).ok = false) :
    Jwt.reauthenticate e o (rr + 1) w =
      Jwt.reauthenticate e o rr
        { w with
            authCalls := w.authCalls + 1
            now := w.now + 1000
            pauses := w.pauses ++ [1000] } := by
  simp [Jwt.reauthenticate, jwt_auth_fail_step e o w cr hcred hfail]

/-- A successful attempt makes `refreshAccessToken` return the token
and write the cache with a 55-minute expiry. No credential check
guards the call. -/
theorem ref_refresh_ok (er : RefreshFlow.Env) (o : Oracle) (w : World) (rr : Nat)
    (hok : (o.authAt w.authCalls).ok = true) :
    RefreshFlow.refreshAccessToken er o rr w =
      (.ok ⟨(o.authAt w.authCalls).access_token, (o.authAt w.authCalls).instance_url⟩,
        { w with
            authCalls := w.authCalls + 1
            cache := some ⟨(o.authAt w.authCalls).access_token,
              (o.authAt w.authCalls).instance_url, w.now + cacheMarginMs⟩ }) := by
  cases rr <;> simp [RefreshFlow.refreshAccessToken, hok]

/-- With no retries left, a failure throws the wrapped body; the cache
is not touched. -/
theorem ref_refresh_zero_fail (er : RefreshFlow.Env) (o : Oracle) (w : World)
    (hfail : (o.authAt w.authCalls).ok = false) :
    RefreshFlow.refreshAccessToken er o 0 w =
      (.error ("Salesforce Auth Failed: " ++ (o.authAt w.authCalls).body),
        { w with authCalls := w.authCalls + 1 }) := by
  simp [RefreshFlow.refreshAccessToken, hfail]

/-- With retries left, a 400 response carrying the transient marker
sleeps one second and recurses. -/
theorem ref_refresh_succ_transient (er : RefreshFlow.Env) (o : Oracle) (w : World) (rr : Nat)
    (hfail : (o.authAt w.authCalls).ok = false)
    (h400 : (o.authAt w.authCalls).status = 400)
    (hmark : containsSub (o.authAt w.authCalls).body ("retry your request") = true) :
    RefreshFlow.refreshAccessToken er o (rr + 1) w =
      RefreshFlow.refreshAccessToken er o rr
        { w with
            authCalls := w.authCalls + 1
            now := w.now + 1000
            pauses := w.pauses ++ [1000] } := by
  simp [RefreshFlow.refreshAccessToken, hfail, h400, hmark]

/-- With retries left, any failure NOT matching the transient
classification is thrown immediately; the cache is not touched. -/
theorem ref_refresh_succ_nontransient (er : RefreshFlow.Env) (o : Oracle) (w : World) (rr : Nat)
    (hfail : (o.authAt w.authCalls).ok = false)
    (hnt : (decide ((o.authAt w.authCalls).status = 400) &&
      containsSub (o.authAt w.authCalls).body ("retry your request")) = false) :
    RefreshFlow.refreshAccessToken er o (rr + 1) w =
      (.error ("Salesforce Auth Failed: " ++ (o.authAt w.authCalls).body),
        { w with authCalls := w.authCalls + 1 }) := by
  simp only [RefreshFlow.refreshAccessToken, hfail, hnt]
  simp

/-- With credentials present, three consecutive failed attempts — of
ANY status, transient or not — exhaust the JWT retry budget: three
network calls, two 1-second pauses, the cache cleared, and the LAST
error surfaced. -/
theorem jwt_reauth_three_failures (e : Jwt.Env) (o : Oracle) (w : World)
    (cr : String × String × String)
    (hcred : Jwt.getJwtCredentials e = .ok cr)
    (h0 : (o.authAt w.authCalls).ok = false)
    (h1 : (o.authAt (w.authCalls + 1)).ok = false)
    (h2 : (o.authAt (w.authCalls + 2)).ok = false) :
    Jwt.reauthenticate e o 2 w =
      (.error (o.authAt (w.authCalls + 2)).body,
        { w with
            cache := none
            now := w.now + 2000
            authCalls := w.authCalls + 3
            pauses := w.pauses ++ [1000, 1000] }) := by
  rw [jwt_reauth_succ_fail e o w cr 1 hcred h0]
  rw [jwt_reauth_succ_fail e o _ cr 0 hcred h1]
  rw [jwt_reauth_zero_fail e o _ cr hcred h2]
  simp [Nat.add_assoc, List.append_assoc]

/-- Two transient failures followed by any third failure exhaust the
refresh-token retry budget: three network calls, two pauses, the LAST
error surfaced wrapped — and the cache untouched. -/
theorem ref_refresh_three_failures (er : RefreshFlow.Env) (o : Oracle) (w : World)
    (h0f : (o.authAt w.authCalls).ok = false)
    (h0s : (o.authAt w.authCalls).status = 400)
    (h0m : containsSub (o.authAt w.authCalls).body ("retry your request") = true)
    (h1f : (o.authAt (w.authCalls + 1)).ok = false)
    (h1s : (o.authAt (w.authCalls + 1)).status = 400)
    (h1m : containsSub (o.authAt (w.authCalls + 1)).body ("retry your request") = true)
    (h2f : (o.authAt (w.authCalls + 2)).ok = false) :
    RefreshFlow.refreshAccessToken er o 2 w =
      (.error ("Salesforce Auth Failed: " ++ (o.authAt (w.authCalls + 2)).body),
        { w with
            now := w.now + 2000
            authCalls := w.authCalls + 3
            pauses := w.pauses ++ [1000, 1000] }) := by
  rw [ref_refresh_succ_transient er o w 1 h0f h0s h0m]
  rw [ref_refresh_succ_transient er o _ 0 h1f h1s h1m]
  rw [ref_refresh_zero_fail er o _ h2f]
  simp [Nat.add_assoc, List.append_assoc]

/-- Retry-count spec of the refresh-token policy: some `k ≤ retries`
extra attempts happen, each preceded by a 1-second pause, and a retry
happens at all only when the first response was a transient 400. -/
theorem ref_refresh_spec (er : RefreshFlow.Env) (o : Oracle) :
    ∀ (rr : Nat) (w : World), ∃ k, k ≤ rr ∧
      (RefreshFlow.refreshAccessToken er o rr w).2.authCalls = w.authCalls + k + 1 ∧
      (RefreshFlow.refreshAccessToken er o rr w).2.pauses =
        w.pauses ++ List.replicate k 1000 ∧
      (0 < k → (o.authAt w.authCalls).ok = false ∧
        (o.authAt w.authCalls).status = 400 ∧
        containsSub (o.authAt w.authCalls).body ("retry your request") = true) := by
  intro rr
  induction rr with
  | zero =>
    intro w
    cases hok : (o.authAt w.authCalls).ok with
    | true =>
      rw [ref_refresh_ok er o w 0 hok]
      exact ⟨0, Nat.le_refl 0, by simp, by simp, fun h => absurd h (Nat.lt_irrefl 0)⟩
    | false =>
      rw [ref_refresh_zero_fail er o w hok]
      exact ⟨0, Nat.le_refl 0, by simp, by simp, fun h => absurd h (Nat.lt_irrefl 0)⟩
  | succ rr ih =>
    intro w
    cases hok : (o.authAt w.authCalls).ok with
    | true =>
      rw [ref_refresh_ok er o w (rr + 1) hok]
      exact ⟨0, Nat.zero_le _, by simp, by simp, fun h => absurd h (Nat.lt_irrefl 0)⟩
    | false =>
      cases htr : (decide ((o.authAt w.authCalls).status = 400) &&
          containsSub (o.authAt w.authCalls).body ("retry your request")) with
      | false =>
        rw [ref_refresh_succ_nontransient er o w rr hok htr]
        exact ⟨0, Nat.zero_le _, by simp, by simp, fun h => absurd h (Nat.lt_irrefl 0)⟩
      | true =>
        have h400 : (o.authAt w.authCalls).status = 400 :=
          of_decide_eq_true (Bool.and_elim_left htr)
        have hmark : containsSub (o.authAt w.authCalls).body ("retry your request") = true :=
          Bool.and_elim_right htr
        rw [ref_refresh_succ_transient er o w rr hok h400 hmark]
        obtain ⟨k, hk, hA, hP, _⟩ := ih
          { w with
              authCalls := w.authCalls + 1
              now := w.now + 1000
              pauses := w.pauses ++ [1000] }
        refine ⟨k + 1, Nat.succ_le_succ hk, ?_, ?_, fun _ => ⟨rfl, h400, hmark⟩⟩
        · simp only [hA]
          simp
          omega
        · simp only [hP]
          simp [List.append_assoc, List.replicate_succ]

/-- Every refresh run makes at least one network call, with or without
configured credentials. -/
theorem ref_refresh_authCalls_ge (er : RefreshFlow.Env) (o : Oracle) (rr : Nat) (w : World) :
    w.authCalls + 1 ≤ (RefreshFlow.refreshAccessToken er o rr w).2.authCalls := by
  obtain ⟨k, _, hA, _, _⟩ := ref_refresh_spec er o rr w
  omega

/-- With configured credentials, every JWT refresh run makes at least
one network call. -/
theorem jwt_reauth_authCalls_ge (e : Jwt.Env) (o : Oracle)
    (cr : String × String × String)
    (hcred : Jwt.getJwtCredentials e = .ok cr) :
    ∀ (rr : Nat) (w : World),
      w.authCalls + 1 ≤ (Jwt.reauthenticate e o rr w).2.authCalls := by
  intro rr
  induction rr with
  | zero =>
    intro w
    cases hok : (o.authAt w.authCalls).ok with
    | true => rw [jwt_reauth_ok e o w cr 0 hcred hok]
    | false => rw [jwt_reauth_zero_fail e o w cr hcred hok]
  | succ rr ih =>
    intro w
    cases hok : (o.authAt w.authCalls).ok with
    | true => rw [jwt_reauth_ok e o w cr (rr + 1) hcred hok]
    | false =>
      rw [jwt_reauth_succ_fail e o w cr rr hcred hok]
      have h := ih
        { w with
            authCalls := w.authCalls + 1
            now := w.now + 1000
            pauses := w.pauses ++ [1000] }
      simp at h
      omega

/-- With unset credentials, one JWT authentication attempt throws the
missing-variables report without any network call. -/
theorem jwt_auth_nocred_step (e : Jwt.Env) (o : Oracle) (w : World) (m : String)
    (hcred : Jwt.getJwtCredentials e = .error m) :
    Jwt.authenticateWithJwt e o w = (.error m, w) := by
  simp [Jwt.authenticateWithJwt, hcred]

/-- Whenever a JWT refresh run succeeds, the cache it leaves holds
exactly the returned token with a 55-minute expiry from the success
instant. -/
theorem jwt_reauth_ok_cache (e : Jwt.Env) (o : Oracle)
    (cr : String × String × String)
    (hcred : Jwt.getJwtCredentials e = .ok cr) :
    ∀ (rr : Nat) (w : World) (a : AuthResult),
      (Jwt.reauthenticate e o rr w).1 = .ok a →
      (Jwt.reauthenticate e o rr w).2.cache =
        some ⟨a.access_token, a.instance_url,
          (Jwt.reauthenticate e o rr w).2.now + cacheMarginMs⟩ := by
  intro rr
  induction rr with
  | zero =>
    intro w a h
    cases hok : (o.authAt w.authCalls).ok with
    | true =>
      rw [jwt_reauth_ok e o w cr 0 hcred hok] at h ⊢
      simp at h ⊢
      subst h
      simp
    | false =>
      rw [jwt_reauth_zero_fail e o w cr hcred hok] at h
      simp at h
  | succ rr ih =>
    intro w a h
    cases hok : (o.authAt w.authCalls).ok with
    | true =>
      rw [jwt_reauth_ok e o w cr (rr + 1) hcred hok] at h ⊢
      simp at h ⊢
      subst h
      simp
    | false =>
      rw [jwt_reauth_succ_fail e o w cr rr hcred hok] at h ⊢
      exact ih _ a h

/-- Whenever a refresh-token run succeeds, the cache it leaves holds
exactly the returned token with a 55-minute expiry from the success
instant. -/
theorem ref_refresh_ok_cache (er : RefreshFlow.Env) (o : Oracle) :
    ∀ (rr : Nat) (w : World) (a : AuthResult),
      (RefreshFlow.refreshAccessToken er o rr w).1 = .ok a →
      (RefreshFlow.refreshAccessToken er o rr w).2.cache =
        some ⟨a.access_token, a.instance_url,
          (RefreshFlow.refreshAccessToken er o rr w).2.now + cacheMarginMs⟩ := by
  intro rr
  induction rr with
  | zero =>
    intro w a h
    cases hok : (o.authAt w.authCalls).ok with
    | true =>
      rw [ref_refresh_ok er o w 0 hok] at h ⊢
      simp at h ⊢
      subst h
      simp
    | false =>
      rw [ref_refresh_zero_fail er o w hok] at h
      simp at h
  | succ rr ih =>
    intro w a h
    cases hok : (o.authAt w.authCalls).ok with
    | true =>
      rw [ref_refresh_ok er o w (rr + 1) hok] at h ⊢
      simp at h ⊢
      subst h
      simp
    | false =>
      cases htr : (decide ((o.authAt w.authCalls).status = 400) &&
          containsSub (o.authAt w.authCalls).body ("retry your request")) with
      | false =>
        rw [ref_refresh_succ_nontransient er o w rr hok htr] at h
        simp at h
      | true =>
        have h400 : (o.authAt w.authCalls).status = 400 :=
          of_decide_eq_true (Bool.and_elim_left htr)
        have hmark : containsSub (o.authAt w.authCalls).body ("retry your request") = true :=
          Bool.and_elim_right htr
        rw [ref_refresh_succ_transient er o w rr hok h400 hmark] at h ⊢
        exact ih _ a h

/-- `reauthenticate` never touches the refresh-run counter (it is the
caller, `getSalesforceAccessToken`, that marks a run). -/
theorem jwt_reauth_refreshRuns (e : Jwt.Env) (o : Oracle) :
    ∀ (rr : Nat) (w : World),
      (Jwt.reauthenticate e o rr w).2.refreshRuns = w.refreshRuns := by
  intro rr
  induction rr with
  | zero =>
    intro w
    cases hcr : Jwt.getJwtCredentials e with
    | error m => simp [Jwt.reauthenticate, jwt_auth_nocred_step e o w m hcr]
    | ok cr =>
      cases hok : (o.authAt w.authCalls).ok with
      | true => rw [jwt_reauth_ok e o w cr 0 hcr hok]
      | false => rw [jwt_reauth_zero_fail e o w cr hcr hok]
  | succ rr ih =>
    intro w
    cases hcr : Jwt.getJwtCredentials e with
    | error m =>
      have hstep : Jwt.reauthenticate e o (rr + 1) w =
          Jwt.reauthenticate e o rr
            { w with now := w.now + 1000, pauses := w.pauses ++ [1000] } := by
        simp [Jwt.reauthenticate, jwt_auth_nocred_step e o w m hcr]
      rw [hstep, ih]
    | ok cr =>
      cases hok : (o.authAt w.authCalls).ok with
      | true => rw [jwt_reauth_ok e o w cr (rr + 1) hcr hok]
      | false => rw [jwt_reauth_succ_fail e o w cr rr hcr hok, ih]

/-- `refreshAccessToken` never touches the refresh-run counter. -/
theorem ref_refresh_refreshRuns (er : RefreshFlow.Env) (o : Oracle) :
    ∀ (rr : Nat) (w : World),
      (RefreshFlow.refreshAccessToken er o rr w).2.refreshRuns = w.refreshRuns := by
  intro rr
  induction rr with
  | zero =>
    intro w
    cases hok : (o.authAt w.authCalls).ok with
    | true => rw [ref_refresh_ok er o w 0 hok]
    | false => rw [ref_refresh_zero_fail er o w hok]
  | succ rr ih =>
    intro w
    cases hok : (o.authAt w.authCalls).ok with
    | true => rw [ref_refresh_ok er o w (rr + 1) hok]
    | false =>
      cases htr : (decide ((o.authAt w.authCalls).status = 400) &&
          containsSub (o.authAt w.authCalls).body ("retry your request")) with
      | false => rw [ref_refresh_succ_nontransient er o w rr hok htr]
      | true =>
        have h400 : (o.authAt w.authCalls).status = 400 :=
          of_decide_eq_true (Bool.and_elim_left htr)
        have hmark : containsSub (o.authAt w.authCalls).body ("retry your request") = true :=
          Bool.and_elim_right htr
        rw [ref_refresh_succ_transient er o w rr hok h400 hmark, ih]

/-- A caller whose synchronous prefix sees a stale cache and an
existing in-flight promise attaches to it and changes nothing. -/
theorem getSync_stale_attached (t : Nat) (s : FlightState) (id : Nat)
    (hst : staleAt t s.cache = true) (hin : s.inflight = some id) :
    getSync t s = (.attached id, s) := by
  cases hcache : s.cache with
  | none => simp [getSync, hcache, joinOrStart, hin]
  | some tc =>
    have hexp : ¬ t < tc.expiresAt := by
      simpa [staleAt, hcache] using hst
    simp [getSync, hcache, hexp, joinOrStart, hin]

/-- Once a refresh promise is in flight, a whole batch of stale callers
attaches to it without changing the state. -/
theorem runCallers_attached (id : Nat) :
    ∀ (ts : List Nat) (s : FlightState),
      (∀ t ∈ ts, staleAt t s.cache = true) → s.inflight = some id →
      runCallers ts s = (List.replicate ts.length (.attached id), s) := by
  intro ts
  induction ts with
  | nil => intro s _ _; rfl
  | cons t ts ih =>
    intro s hst hin
    have h1 : getSync t s = (.attached id, s) :=
      getSync_stale_attached t s id (hst t (List.mem_cons_self t ts)) hin
    have h2 : runCallers ts s = (List.replicate ts.length (.attached id), s) :=
      ih s (fun u hu => hst u (List.mem_cons_of_mem t hu)) hin
    simp [runCallers, h1, h2, List.replicate_succ]

/-- On a stale cache (absent or expired), the JWT `get()` marks and
runs one refresh. -/
theorem jwt_get_stale (e : Jwt.Env) (o : Oracle) (w : World)
    (hst : staleAt w.now w.cache = true) :
    Jwt.getSalesforceAccessToken e o w =
      Jwt.reauthenticate e o 2 { w with refreshRuns := w.refreshRuns + 1 } := by
  cases hc : w.cache with
  | none => simp [Jwt.getSalesforceAccessToken, hc]
  | some tc2 =>
    have hexp : ¬ w.now < tc2.expiresAt := by simpa [staleAt, hc] using hst
    simp [Jwt.getSalesforceAccessToken, hc, hexp]

/-- On a stale cache (absent or expired), the refresh-token `get()`
marks and runs one refresh. -/
theorem ref_get_stale (er : RefreshFlow.Env) (o : Oracle) (w : World)
    (hst : staleAt w.now w.cache = true) :
    RefreshFlow.getSalesforceAccessToken er o w =
      RefreshFlow.refreshAccessToken er o 2 { w with refreshRuns := w.refreshRuns + 1 } := by
  cases hc : w.cache with
  | none => simp [RefreshFlow.getSalesforceAccessToken, hc]
  | some tc2 =>
    have hexp : ¬ w.now < tc2.expiresAt := by simpa [staleAt, hc] using hst
    simp [RefreshFlow.getSalesforceAccessToken, hc, hexp]

/-- On a fresh cache, the JWT `get()` returns the cached token with the
world — every counter included — untouched. -/
theorem jwt_get_fresh (e : Jwt.Env) (o : Oracle) (w : World) (tc : CachedToken)
    (hc : w.cache = some tc) (hfresh : w.now < tc.expiresAt) :
    Jwt.getSalesforceAccessToken e o w =
      (.ok ⟨tc.access_token, tc.instance_url⟩, w) := by
  simp [Jwt.getSalesforceAccessToken, hc, hfresh]

/-- On a fresh cache, the refresh-token `get()` returns the cached
token with the world untouched. -/
theorem ref_get_fresh (er : RefreshFlow.Env) (o : Oracle) (w : World) (tc : CachedToken)
    (hc : w.cache = some tc) (hfresh : w.now < tc.expiresAt) :
    RefreshFlow.getSalesforceAccessToken er o w =
      (.ok ⟨tc.access_token, tc.instance_url⟩, w) := by
  simp [RefreshFlow.getSalesforceAccessToken, hc, hfresh]

/-- The `missing` list computed by `getJwtCredentials`: every unset (or
empty) variable, in the source's fixed push order. -/
def missingVars (e : Jwt.Env) : List String :=
  (if e.clientId.getD ("") = "" then ["SALESFORCE_CLIENT_ID"] else []) ++
  (if e.username.getD ("") = "" then ["SALESFORCE_USERNAME"] else []) ++
  (if e.privateKey.getD ("") = "" then ["SALESFORCE_JWT_PRIVATE_KEY"] else [])

/-- With any variable unset, `getJwtCredentials` throws one report
naming every absent variable. -/
theorem getJwtCredentials_missing (e : Jwt.Env) (h : missingVars e ≠ []) :
    Jwt.getJwtCredentials e =
      .error ("Missing required Forge variables: " ++
        String.intercalate (", ") (missingVars e)) := by
  have hlen : 0 < (missingVars e).length := List.length_pos.mpr h
  unfold missingVars at hlen
  simp only [Jwt.getJwtCredentials, missingVars]
  rw [if_pos hlen]

/-! ## Claim theorems -/

/-- C1 — Single-flight: for any batch of `get()` calls whose
synchronous prefixes all observe a stale cache (absent or expired)
while no refresh promise exists yet and before the refresh settles,
exactly one refresh run — hence exactly one single-flight
authentication call to the retry-wrapped authenticator — is started
(`startedRuns` grows by exactly one id), every caller is attached to
that same run, and for any settled outcome of that run (the same
`AuthResult` on success or the same error on failure) every caller
receives exactly that outcome — never a mix. -/
theorem claim_C1_single_flight (ts : List Nat) (s : FlightState)
    (hin : s.inflight = none)
    (hstale : ∀ t ∈ ts, staleAt t s.cache = true) (hne : ts ≠ []) :
    (runCallers ts s).2.startedRuns = s.startedRuns ++ [s.nextId] ∧
    (runCallers ts s).1 = List.replicate ts.length (.attached s.nextId) ∧
    ∀ res : Nat → Except String AuthResult,
      (runCallers ts s).1.map (callerFinal res) =
        List.replicate ts.length (res s.nextId) := by
  cases ts with
  | nil => exact absurd rfl hne
  | cons t ts =>
    have hstep : getSync t s =
        (.attached s.nextId,
          { s with
              inflight := some s.nextId
              nextId := s.nextId + 1
              startedRuns := s.startedRuns ++ [s.nextId] }) := by
      cases hcache : s.cache with
      | none => simp [getSync, hcache, joinOrStart, hin]
      | some tc =>
        have hexp : ¬ t < tc.expiresAt := by
          simpa [staleAt, hcache] using hstale t (List.mem_cons_self t ts)
        simp [getSync, hcache, hexp, joinOrStart, hin]
    have hrest := runCallers_attached s.nextId ts
      { s with
          inflight := some s.nextId
          nextId := s.nextId + 1
          startedRuns := s.startedRuns ++ [s.nextId] }
      (fun u hu => hstale u (List.mem_cons_of_mem t hu)) rfl
    refine ⟨?_, ?_, ?_⟩
    · simp [runCallers, hstep, hrest]
    · simp [runCallers, hstep, hrest, List.replicate_succ]
    · intro res
      simp [runCallers, hstep, hrest, List.replicate_succ, callerFinal]

/-- C1 witness: three concurrent callers over an empty cache all attach
to the single started run 0 and all receive that run's one outcome. -/
theorem claim_C1_single_flight_witness :
    (runCallers [5, 6, 7] ⟨none, none, 0, []⟩).2.startedRuns = [] ++ [0] ∧
    (runCallers [5, 6, 7] ⟨none, none, 0, []⟩).1 =
      List.replicate [5, 6, 7].length (.attached 0) ∧
    ∀ res : Nat → Except String AuthResult,
      (runCallers [5, 6, 7] (⟨none, none, 0, []⟩ : FlightState)).1.map (callerFinal res) =
        List.replicate [5, 6, 7].length (res 0) :=
  claim_C1_single_flight [5, 6, 7] ⟨none, none, 0, []⟩ rfl (by decide) (by decide)

/-- C7 counterexample: the input consisting of a backslash followed by
a quote contains a quote character, yet the produced LIKE literal body
closes the surrounding string literal early: the inserted backslash is
consumed by the attacker-supplied backslash and the quote is left
unescaped. -/
theorem claim_C7_counterexample :
    '\'' ∈ ("\\'").toList ∧
    closesEarly (("%" ++ escapeQuotes ("\\'") ++ "%").toList) = true := by
  decide

/-- C7 (amended) — For every search term or filter value containing no
backslash character, each embedded quote is escaped and the produced
literal body (both the `LIKE` form between `%` markers and the equality
form) never closes the surrounding string literal early; an input
containing a backslash immediately before a quote can still close the
literal early, because backslashes are not themselves escaped. -/
theorem claim_C7_escaping_amended (s : String) (hs : '\\' ∉ s.toList) :
    closesEarly (("%" ++ escapeQuotes s ++ "%").toList) = false ∧
    closesEarly ((escapeQuotes s).toList) = false := by
  have hlike : ("%" ++ escapeQuotes s ++ "%").toList =
      '%' :: (escList s.toList ++ ['%']) := by
    simp [escapeQuotes, String.toList, String.data_append]
  have heq : (escapeQuotes s).toList = escList s.toList ++ [] := by
    simp [escapeQuotes, String.toList]
  constructor
  · rw [hlike, closesEarly_cons, if_neg (by decide), if_neg (by decide),
      closesEarly_escList_append ['%'] s.toList hs]
    rfl
  · rw [heq, closesEarly_escList_append [] s.toList hs]
    rfl

/-- C7 witness: a quote-containing, backslash-free input is fully
escaped and its literal never closes early. -/
theorem claim_C7_escaping_amended_witness :
    closesEarly (("%" ++ escapeQuotes ("O'Brien") ++ "%").toList) = false ∧
    closesEarly ((escapeQuotes ("O'Brien")).toList) = false :=
  claim_C7_escaping_amended ("O'Brien") (by decide)

/-- C2 counterexample: in the refresh-token variant, a data request
whose first execution returns HTTP 401 is surfaced as an error
immediately — no cache invalidation (`invalidations = 0`), no
re-authentication (`authCalls = 0`), and no reissued call
(`dataCalls = 1`) — contradicting the claimed 401 self-heal for every
data request. -/
theorem claim_C2_counterexample :
    RefreshFlow.executeSalesforceQuery envRefFull oracle401ThenOk ("Q")
      (World.init 500 (some freshTok)) =
      (.error ("Salesforce Query Failed (401): Session expired"),
        ⟨500, some freshTok, 0, 1, 0, 0, [], [("liveTok")], [("Q")]⟩) ∧
    (RefreshFlow.executeSalesforceQuery envRefFull oracle401ThenOk ("Q")
      (World.init 500 (some freshTok))).2.invalidations = 0 ∧
    (RefreshFlow.executeSalesforceQuery envRefFull oracle401ThenOk ("Q")
      (World.init 500 (some freshTok))).2.authCalls = 0 ∧
    (RefreshFlow.executeSalesforceQuery envRefFull oracle401ThenOk ("Q")
      (World.init 500 (some freshTok))).2.dataCalls = 1 :=
  ⟨rfl, rfl, rfl, rfl⟩

/-- C2 (amended) — The JWT-variant executor self-heals on 401: exactly
one cache invalidation, exactly one re-authentication network call,
and exactly one reissued data call carrying the newly obtained token,
whose result — success or failure — is returned with no further retry;
any other non-success status is returned as an error with no retry and
no invalidation. The refresh-token-variant executor performs no 401
handling at all: every non-success status, 401 included, is surfaced
as `Salesforce Query Failed (status)` with no invalidation and no
retry. -/
theorem claim_C2_401_selfheal_amended (e : Jwt.Env) (er : RefreshFlow.Env)
    (o : Oracle) (soql : String) (w : World) (tc : CachedToken)
    (cr : String × String × String)
    (h1 : w.cache = some tc) (h2 : w.now < tc.expiresAt)
    (hcred : Jwt.getJwtCredentials e = .ok cr) :
    ((o.dataAt w.dataCalls).ok = false → (o.dataAt w.dataCalls).status = 401 →
      (o.authAt w.authCalls).ok = true →
      (Jwt.executeSalesforceQuery e o soql w).2.invalidations = w.invalidations + 1 ∧
      (Jwt.executeSalesforceQuery e o soql w).2.refreshRuns = w.refreshRuns + 1 ∧
      (Jwt.executeSalesforceQuery e o soql w).2.authCalls = w.authCalls + 1 ∧
      (Jwt.executeSalesforceQuery e o soql w).2.dataCalls = w.dataCalls + 2 ∧
      (Jwt.executeSalesforceQuery e o soql w).2.dataTokens =
        w.dataTokens ++ [tc.access_token, (o.authAt w.authCalls).access_token] ∧
      (Jwt.executeSalesforceQuery e o soql w).1 =
        (if (o.dataAt (w.dataCalls + 1)).ok = true then
          .ok (o.dataAt (w.dataCalls + 1)).json
        else .error (o.dataAt (w.dataCalls + 1)).body)) ∧
    ((o.dataAt w.dataCalls).ok = false → ¬ (o.dataAt w.dataCalls).status = 401 →
      Jwt.executeSalesforceQuery e o soql w =
        (.error (o.dataAt w.dataCalls).body,
          { w with
              dataCalls := w.dataCalls + 1
              dataTokens := w.dataTokens ++ [tc.access_token]
              dataQueries := w.dataQueries ++ [soql] })) ∧
    ((o.dataAt w.dataCalls).ok = false →
      RefreshFlow.executeSalesforceQuery er o soql w =
        (.error ("Salesforce Query Failed (" ++ toString (o.dataAt w.dataCalls).status ++
          "): " ++ (o.dataAt w.dataCalls).body),
          { w with
              dataCalls := w.dataCalls + 1
              dataTokens := w.dataTokens ++ [tc.access_token]
              dataQueries := w.dataQueries ++ [soql] })) := by
  refine ⟨?_, ?_, ?_⟩
  · intro hfail hst hauth
    have hro : ∀ w' : World, (o.authAt w'.authCalls).ok = true →
        Jwt.reauthenticate e o 2 w' =
          (.ok ⟨(o.authAt w'.authCalls).access_token, (o.authAt w'.authCalls).instance_url⟩,
            { w' with
                authCalls := w'.authCalls + 1
                cache := some ⟨(o.authAt w'.authCalls).access_token,
                  (o.authAt w'.authCalls).instance_url, w'.now + cacheMarginMs⟩ }) :=
      fun w' h => jwt_reauth_ok e o w' cr 2 hcred h
    refine ⟨?_, ?_, ?_, ?_, ?_, ?_⟩ <;>
      simp [Jwt.executeSalesforceQuery, Jwt.getSalesforceAccessToken, h1, h2,
        apiFetchData, hfail, hst, hro, hauth, List.append_assoc] <;>
      split <;> rfl
  · intro hfail hne
    simp [Jwt.executeSalesforceQuery, Jwt.getSalesforceAccessToken, h1, h2,
      apiFetchData, hfail, hne]
  · intro hfail
    simp [RefreshFlow.executeSalesforceQuery, RefreshFlow.getSalesforceAccessToken,
      h1, h2, apiFetchData, hfail]

/-- C2 witness: with a fresh cached token, a 401 then a success on the
retry exercises the JWT self-heal (one invalidation, one re-auth, two
data calls, new token on the retry, the retry's result returned); a
500 is surfaced by both executors without any retry. -/
theorem claim_C2_401_selfheal_amended_witness :
    ((Jwt.executeSalesforceQuery envJwtFull oracle401ThenOk ("Q")
        (World.init 500 (some freshTok))).2.invalidations =
      (World.init 500 (some freshTok)).invalidations + 1 ∧
    (Jwt.executeSalesforceQuery envJwtFull oracle401ThenOk ("Q")
        (World.init 500 (some freshTok))).2.refreshRuns =
      (World.init 500 (some freshTok)).refreshRuns + 1 ∧
    (Jwt.executeSalesforceQuery envJwtFull oracle401ThenOk ("Q")
        (World.init 500 (some freshTok))).2.authCalls =
      (World.init 500 (some freshTok)).authCalls + 1 ∧
    (Jwt.executeSalesforceQuery envJwtFull oracle401ThenOk ("Q")
        (World.init 500 (some freshTok))).2.dataCalls =
      (World.init 500 (some freshTok)).dataCalls + 2 ∧
    (Jwt.executeSalesforceQuery envJwtFull oracle401ThenOk ("Q")
        (World.init 500 (some freshTok))).2.dataTokens =
      (World.init 500 (some freshTok)).dataTokens ++
        [freshTok.access_token, (oracle401ThenOk.authAt
          (World.init 500 (some freshTok)).authCalls).access_token] ∧
    (Jwt.executeSalesforceQuery envJwtFull oracle401ThenOk ("Q")
        (World.init 500 (some freshTok))).1 =
      (if (oracle401ThenOk.dataAt ((World.init 500 (some freshTok)).dataCalls + 1)).ok = true
        then .ok (oracle401ThenOk.dataAt ((World.init 500 (some freshTok)).dataCalls + 1)).json
        else .error (oracle401ThenOk.dataAt
          ((World.init 500 (some freshTok)).dataCalls + 1)).body)) ∧
    (Jwt.executeSalesforceQuery envJwtFull oracleData500 ("Q")
        (World.init 500 (some freshTok)) =
      (.error (oracleData500.dataAt (World.init 500 (some freshTok)).dataCalls).body,
        { World.init 500 (some freshTok) with
            dataCalls := (World.init 500 (some freshTok)).dataCalls + 1
            dataTokens := (World.init 500 (some freshTok)).dataTokens ++
              [freshTok.access_token]
            dataQueries := (World.init 500 (some freshTok)).dataQueries ++ [("Q")] })) ∧
    (RefreshFlow.executeSalesforceQuery envRefFull oracleData500 ("Q")
        (World.init 500 (some freshTok)) =
      (.error ("Salesforce Query Failed (" ++
          toString (oracleData500.dataAt (World.init 500 (some freshTok)).dataCalls).status ++
          "): " ++ (oracleData500.dataAt (World.init 500 (some freshTok)).dataCalls).body),
        { World.init 500 (some freshTok) with
            dataCalls := (World.init 500 (some freshTok)).dataCalls + 1
            dataTokens := (World.init 500 (some freshTok)).dataTokens ++
              [freshTok.access_token]
            dataQueries := (World.init 500 (some freshTok)).dataQueries ++ [("Q")] })) :=
  ⟨(claim_C2_401_selfheal_amended envJwtFull envRefFull oracle401ThenOk ("Q")
      (World.init 500 (some freshTok)) freshTok (("cid"), ("user@co"), ("pem"))
      rfl (by decide) rfl).1 rfl rfl rfl,
    (claim_C2_401_selfheal_amended envJwtFull envRefFull oracleData500 ("Q")
      (World.init 500 (some freshTok)) freshTok (("cid"), ("user@co"), ("pem"))
      rfl (by decide) rfl).2.1 rfl (by decide),
    (claim_C2_401_selfheal_amended envJwtFull envRefFull oracleData500 ("Q")
      (World.init 500 (some freshTok)) freshTok (("cid"), ("user@co"), ("pem"))
      rfl (by decide) rfl).2.2 rfl⟩

/-- C3 counterexample: the JWT-variant policy `reauthenticate` retries
a plain 500 failure — whose body does not contain the transient marker
— twice, making 3 network calls with two 1-second pauses, where the
claim requires any non-transient failure to surface immediately after
the first attempt with no retry. -/
theorem claim_C3_counterexample :
    (Jwt.reauthenticate envJwtFull oracleAuthBoom 2 (World.init 0 none)).2.authCalls = 3 ∧
    (Jwt.reauthenticate envJwtFull oracleAuthBoom 2 (World.init 0 none)).2.pauses =
      [1000, 1000] ∧
    (Jwt.reauthenticate envJwtFull oracleAuthBoom 2 (World.init 0 none)).1 =
      .error ("boom") ∧
    (oracleAuthBoom.authAt 0).status = 500 ∧
    containsSub (oracleAuthBoom.authAt 0).body ("retry your request") = false :=
  ⟨rfl, rfl, rfl, rfl, rfl⟩

/-- C3 (amended) — Both retry policies make at most 2 additional
attempts (3 total) with a fixed 1-second pause between attempts. The
refresh-token-strategy policy retries only when the failure is an HTTP
400 whose body contains the transient marker "retry your request" and
surfaces any other failure immediately after the first attempt; the
JWT-strategy policy, however, retries on ANY failure, transient or
not. -/
theorem claim_C3_transient_retry_amended (e : Jwt.Env) (er : RefreshFlow.Env)
    (o : Oracle) (w : World) (cr : String × String × String)
    (hcred : Jwt.getJwtCredentials e = .ok cr) :
    ((RefreshFlow.refreshAccessToken er o 2 w).2.authCalls ≤ w.authCalls + 3 ∧
      (RefreshFlow.refreshAccessToken er o 2 w).2.pauses =
        w.pauses ++ List.replicate
          ((RefreshFlow.refreshAccessToken er o 2 w).2.authCalls - (w.authCalls + 1))
          1000) ∧
    ((o.authAt w.authCalls).ok = false →
      (decide ((o.authAt w.authCalls).status = 400) &&
        containsSub (o.authAt w.authCalls).body ("retry your request")) = false →
      RefreshFlow.refreshAccessToken er o 2 w =
        (.error ("Salesforce Auth Failed: " ++ (o.authAt w.authCalls).body),
          { w with authCalls := w.authCalls + 1 })) ∧
    (w.authCalls + 1 < (RefreshFlow.refreshAccessToken er o 2 w).2.authCalls →
      (o.authAt w.authCalls).ok = false ∧ (o.authAt w.authCalls).status = 400 ∧
      containsSub (o.authAt w.authCalls).body ("retry your request") = true) ∧
    ((o.authAt w.authCalls).ok = false → (o.authAt (w.authCalls + 1)).ok = false →
      (o.authAt (w.authCalls + 2)).ok = false →
      Jwt.reauthenticate e o 2 w =
        (.error (o.authAt (w.authCalls + 2)).body,
          { w with
              cache := none
              now := w.now + 2000
              authCalls := w.authCalls + 3
              pauses := w.pauses ++ [1000, 1000] })) := by
  refine ⟨?_, ?_, ?_, ?_⟩
  · obtain ⟨k, hk, hA, hP, _⟩ := ref_refresh_spec er o 2 w
    have hsub : (RefreshFlow.refreshAccessToken er o 2 w).2.authCalls -
        (w.authCalls + 1) = k := by omega
    exact ⟨by omega, by rw [hsub, hP]⟩
  · intro hfail hnt
    exact ref_refresh_succ_nontransient er o w 1 hfail hnt
  · intro hlt
    cases hok : (o.authAt w.authCalls).ok with
    | true =>
      rw [ref_refresh_ok er o w 2 hok] at hlt
      simp at hlt
    | false =>
      cases htr : (decide ((o.authAt w.authCalls).status = 400) &&
          containsSub (o.authAt w.authCalls).body ("retry your request")) with
      | false =>
        rw [ref_refresh_succ_nontransient er o w 1 hok htr] at hlt
        simp at hlt
      | true =>
        exact ⟨rfl, of_decide_eq_true (Bool.and_elim_left htr),
          Bool.and_elim_right htr⟩
  · intro h0 h1 h2
    exact jwt_reauth_three_failures e o w cr hcred h0 h1 h2

/-- C3 witness: the refresh-token policy retries a transient 400 twice
(3 attempts, two 1-second pauses), surfaces a plain 500 after one
attempt, retries only after a transient first response — and the JWT
policy burns all three attempts on plain 500s. -/
theorem claim_C3_transient_retry_amended_witness :
    ((RefreshFlow.refreshAccessToken envRefFull oracleAuthTransient 2
        (World.init 0 none)).2.authCalls ≤ (World.init 0 none).authCalls + 3 ∧
      (RefreshFlow.refreshAccessToken envRefFull oracleAuthTransient 2
        (World.init 0 none)).2.pauses =
        (World.init 0 none).pauses ++ List.replicate
          ((RefreshFlow.refreshAccessToken envRefFull oracleAuthTransient 2
            (World.init 0 none)).2.authCalls - ((World.init 0 none).authCalls + 1))
          1000) ∧
    (RefreshFlow.refreshAccessToken envRefFull oracleAuthBoom 2 (World.init 0 none) =
      (.error ("Salesforce Auth Failed: " ++ (oracleAuthBoom.authAt
        (World.init 0 none).authCalls).body),
        { World.init 0 none with authCalls := (World.init 0 none).authCalls + 1 })) ∧
    ((oracleAuthTransient.authAt (World.init 0 none).authCalls).ok = false ∧
      (oracleAuthTransient.authAt (World.init 0 none).authCalls).status = 400 ∧
      containsSub (oracleAuthTransient.authAt (World.init 0 none).authCalls).body
        ("retry your request") = true) ∧
    (Jwt.reauthenticate envJwtFull oracleAuthBoom 2 (World.init 0 none) =
      (.error (oracleAuthBoom.authAt ((World.init 0 none).authCalls + 2)).body,
        { World.init 0 none with
            cache := none
            now := (World.init 0 none).now + 2000
            authCalls := (World.init 0 none).authCalls + 3
            pauses := (World.init 0 none).pauses ++ [1000, 1000] })) :=
  ⟨(claim_C3_transient_retry_amended envJwtFull envRefFull oracleAuthTransient
      (World.init 0 none) (("cid"), ("user@co"), ("pem")) rfl).1,
    (claim_C3_transient_retry_amended envJwtFull envRefFull oracleAuthBoom
      (World.init 0 none) (("cid"), ("user@co"), ("pem")) rfl).2.1 rfl (by decide),
    (claim_C3_transient_retry_amended envJwtFull envRefFull oracleAuthTransient
      (World.init 0 none) (("cid"), ("user@co"), ("pem")) rfl).2.2.1 (by decide),
    (claim_C3_transient_retry_amended envJwtFull envRefFull oracleAuthBoom
      (World.init 0 none) (("cid"), ("user@co"), ("pem")) rfl).2.2.2 rfl rfl rfl⟩

/-- C8 counterexample: in the refresh-token variant, a `get()` over an
expired cached entry whose refresh fails surfaces the error but leaves
the expired entry in the cache — the cache is NOT cleared, where the
claim requires the state machine to end Stale with the cache
cleared. -/
theorem claim_C8_counterexample :
    (RefreshFlow.getSalesforceAccessToken envRefFull oracleAuthBoom
      (World.init 200 (some staleTok))).1 = .error ("Salesforce Auth Failed: boom") ∧
    (RefreshFlow.getSalesforceAccessToken envRefFull oracleAuthBoom
      (World.init 200 (some staleTok))).2.cache = some staleTok ∧
    some staleTok ≠ (none : Option CachedToken) :=
  ⟨rfl, rfl, by decide⟩

/-- C8 (amended) — After retries are exhausted, both retry policies
surface the LAST observed error to the caller; the JWT-strategy policy
leaves the cache cleared, while the refresh-token-strategy policy
leaves the cache exactly as it was (absent or holding the stale entry —
the state is Stale, but the entry is not explicitly cleared). -/
theorem claim_C8_exhausted_amended (e : Jwt.Env) (er : RefreshFlow.Env)
    (o : Oracle) (w : World) (cr : String × String × String)
    (hcred : Jwt.getJwtCredentials e = .ok cr) :
    ((o.authAt w.authCalls).ok = false → (o.authAt (w.authCalls + 1)).ok = false →
      (o.authAt (w.authCalls + 2)).ok = false →
      (Jwt.reauthenticate e o 2 w).1 = .error (o.authAt (w.authCalls + 2)).body ∧
      (Jwt.reauthenticate e o 2 w).2.cache = none) ∧
    ((o.authAt w.authCalls).ok = false → (o.authAt w.authCalls).status = 400 →
      containsSub (o.authAt w.authCalls).body ("retry your request") = true →
      (o.authAt (w.authCalls + 1)).ok = false →
      (o.authAt (w.authCalls + 1)).status = 400 →
      containsSub (o.authAt (w.authCalls + 1)).body ("retry your request") = true →
      (o.authAt (w.authCalls + 2)).ok = false →
      (RefreshFlow.refreshAccessToken er o 2 w).1 =
        .error ("Salesforce Auth Failed: " ++ (o.authAt (w.authCalls + 2)).body) ∧
      (RefreshFlow.refreshAccessToken er o 2 w).2.cache = w.cache) := by
  constructor
  · intro h0 h1 h2
    rw [jwt_reauth_three_failures e o w cr hcred h0 h1 h2]
    exact ⟨rfl, rfl⟩
  · intro h0f h0s h0m h1f h1s h1m h2f
    rw [ref_refresh_three_failures er o w h0f h0s h0m h1f h1s h1m h2f]
    exact ⟨rfl, rfl⟩

/-- C4 — Cache freshness: in both variants, a `get()` at a time
strictly before `expiresAt` returns the cached token with the world —
in particular every network-call counter — unchanged; a `get()` on a
stale cache (absent or expired, with configured credentials in the JWT
variant) performs at least one authentication network call; and every
successful refresh, at any retry depth, writes the cache with
`expiresAt` equal to the time of the write plus 55 minutes. -/
theorem claim_C4_cache_freshness (e : Jwt.Env) (er : RefreshFlow.Env) (o : Oracle)
    (w : World) (tc : CachedToken) (cr : String × String × String)
    (rr : Nat) (a : AuthResult) :
    (w.cache = some tc → w.now < tc.expiresAt →
      Jwt.getSalesforceAccessToken e o w = (.ok ⟨tc.access_token, tc.instance_url⟩, w) ∧
      RefreshFlow.getSalesforceAccessToken er o w =
        (.ok ⟨tc.access_token, tc.instance_url⟩, w)) ∧
    (staleAt w.now w.cache = true → Jwt.getJwtCredentials e = .ok cr →
      w.authCalls + 1 ≤ (Jwt.getSalesforceAccessToken e o w).2.authCalls) ∧
    (staleAt w.now w.cache = true →
      w.authCalls + 1 ≤ (RefreshFlow.getSalesforceAccessToken er o w).2.authCalls) ∧
    ((Jwt.reauthenticate e o rr w).1 = .ok a → Jwt.getJwtCredentials e = .ok cr →
      (Jwt.reauthenticate e o rr w).2.cache =
        some ⟨a.access_token, a.instance_url,
          (Jwt.reauthenticate e o rr w).2.now + cacheMarginMs⟩) ∧
    ((RefreshFlow.refreshAccessToken er o rr w).1 = .ok a →
      (RefreshFlow.refreshAccessToken er o rr w).2.cache =
        some ⟨a.access_token, a.instance_url,
          (RefreshFlow.refreshAccessToken er o rr w).2.now + cacheMarginMs⟩) := by
  refine ⟨?_, ?_, ?_, ?_, ?_⟩
  · intro hc hfresh
    constructor
    · simp [Jwt.getSalesforceAccessToken, hc, hfresh]
    · simp [RefreshFlow.getSalesforceAccessToken, hc, hfresh]
  · intro hst hcred
    rw [jwt_get_stale e o w hst]
    have h := jwt_reauth_authCalls_ge e o cr hcred 2
      { w with refreshRuns := w.refreshRuns + 1 }
    simpa using h
  · intro hst
    rw [ref_get_stale er o w hst]
    have h := ref_refresh_authCalls_ge er o 2
      { w with refreshRuns := w.refreshRuns + 1 }
    simpa using h
  · intro h hcred
    exact jwt_reauth_ok_cache e o cr hcred rr w a h
  · intro h
    exact ref_refresh_ok_cache er o rr w a h

/-- C4 witness: a fresh cache serves both variants without any call;
an empty cache forces a network call; a successful refresh caches
`tokA` with a 55-minute expiry from time 0. -/
theorem claim_C4_cache_freshness_witness :
    (Jwt.getSalesforceAccessToken envJwtFull oracleAllOk (World.init 500 (some freshTok)) =
      (.ok ⟨freshTok.access_token, freshTok.instance_url⟩, World.init 500 (some freshTok)) ∧
    RefreshFlow.getSalesforceAccessToken envRefFull oracleAllOk
        (World.init 500 (some freshTok)) =
      (.ok ⟨freshTok.access_token, freshTok.instance_url⟩, World.init 500 (some freshTok))) ∧
    ((World.init 0 none).authCalls + 1 ≤
      (Jwt.getSalesforceAccessToken envJwtFull oracleAllOk (World.init 0 none)).2.authCalls) ∧
    ((World.init 0 none).authCalls + 1 ≤
      (RefreshFlow.getSalesforceAccessToken envRefFull oracleAllOk
        (World.init 0 none)).2.authCalls) ∧
    ((Jwt.reauthenticate envJwtFull oracleAllOk 2 (World.init 0 none)).2.cache =
      some ⟨(⟨("tokA"), ("https://inst.example")⟩ : AuthResult).access_token,
        (⟨("tokA"), ("https://inst.example")⟩ : AuthResult).instance_url,
        (Jwt.reauthenticate envJwtFull oracleAllOk 2 (World.init 0 none)).2.now +
          cacheMarginMs⟩) ∧
    ((RefreshFlow.refreshAccessToken envRefFull oracleAllOk 2 (World.init 0 none)).2.cache =
      some ⟨(⟨("tokA"), ("https://inst.example")⟩ : AuthResult).access_token,
        (⟨("tokA"), ("https://inst.example")⟩ : AuthResult).instance_url,
        (RefreshFlow.refreshAccessToken envRefFull oracleAllOk 2
          (World.init 0 none)).2.now + cacheMarginMs⟩) :=
  ⟨(claim_C4_cache_freshness envJwtFull envRefFull oracleAllOk
      (World.init 500 (some freshTok)) freshTok (("cid"), ("user@co"), ("pem")) 2
      ⟨("tokA"), ("https://inst.example")⟩).1 rfl (by decide),
    (claim_C4_cache_freshness envJwtFull envRefFull oracleAllOk
      (World.init 0 none) freshTok (("cid"), ("user@co"), ("pem")) 2
      ⟨("tokA"), ("https://inst.example")⟩).2.1 (by decide) rfl,
    (claim_C4_cache_freshness envJwtFull envRefFull oracleAllOk
      (World.init 0 none) freshTok (("cid"), ("user@co"), ("pem")) 2
      ⟨("tokA"), ("https://inst.example")⟩).2.2.1 (by decide),
    (claim_C4_cache_freshness envJwtFull envRefFull oracleAllOk
      (World.init 0 none) freshTok (("cid"), ("user@co"), ("pem")) 2
      ⟨("tokA"), ("https://inst.example")⟩).2.2.2.1 rfl rfl,
    (claim_C4_cache_freshness envJwtFull envRefFull oracleAllOk
      (World.init 0 none) freshTok (("cid"), ("user@co"), ("pem")) 2
      ⟨("tokA"), ("https://inst.example")⟩).2.2.2.2 rfl⟩

/-- C5 counterexample: with two of the refresh-token strategy's three
required variables unset, the authentication proceeds anyway — the
network call is made (`authCalls = 1`) and even succeeds — instead of
failing with a report of the missing fields before any network
call. -/
theorem claim_C5_counterexample :
    envRefMissingTwo.clientSecret = none ∧
    envRefMissingTwo.refreshToken = none ∧
    RefreshFlow.refreshAccessToken envRefMissingTwo oracleAllOk 2 (World.init 0 none) =
      (.ok ⟨("tokA"), ("https://inst.example")⟩,
        ⟨0, some ⟨("tokA"), ("https://inst.example"), cacheMarginMs⟩,
          1, 0, 0, 0, [], [], []⟩) :=
  ⟨rfl, rfl, rfl⟩

/-- C5 (amended) — The JWT-strategy credential loader fails with a
single error naming every absent field — and its authenticator
therefore throws that report without touching the network; the
refresh-token strategy performs no credential presence validation and
issues its authentication network call even when required fields are
unset. -/
theorem claim_C5_missing_credentials_amended (e : Jwt.Env) (er : RefreshFlow.Env)
    (o : Oracle) (w : World) (rr : Nat) :
    (missingVars e ≠ [] →
      Jwt.getJwtCredentials e =
        .error ("Missing required Forge variables: " ++
          String.intercalate (", ") (missingVars e)) ∧
      Jwt.authenticateWithJwt e o w =
        (.error ("Missing required Forge variables: " ++
          String.intercalate (", ") (missingVars e)), w)) ∧
    w.authCalls + 1 ≤ (RefreshFlow.refreshAccessToken er o rr w).2.authCalls := by
  constructor
  · intro hne
    have hc := getJwtCredentials_missing e hne
    exact ⟨hc, by simp [Jwt.authenticateWithJwt, hc]⟩
  · exact ref_refresh_authCalls_ge er o rr w

/-- C5 witness: with username and private key unset, the JWT loader
reports both in one error, the authenticator makes no network call, and
the refresh-token flow still fires its network call. -/
theorem claim_C5_missing_credentials_amended_witness :
    (Jwt.getJwtCredentials envJwtMissingTwo =
      .error ("Missing required Forge variables: " ++
        String.intercalate (", ") (missingVars envJwtMissingTwo)) ∧
    Jwt.authenticateWithJwt envJwtMissingTwo oracleAllOk (World.init 0 none) =
      (.error ("Missing required Forge variables: " ++
        String.intercalate (", ") (missingVars envJwtMissingTwo)),
        World.init 0 none)) ∧
    (World.init 0 none).authCalls + 1 ≤
      (RefreshFlow.refreshAccessToken envRefMissingTwo oracleAllOk 2
        (World.init 0 none)).2.authCalls :=
  ⟨(claim_C5_missing_credentials_amended envJwtMissingTwo envRefMissingTwo
      oracleAllOk (World.init 0 none) 2).1 (by decide),
    (claim_C5_missing_credentials_amended envJwtMissingTwo envRefMissingTwo
      oracleAllOk (World.init 0 none) 2).2⟩

/-- C6 — Query construction: the clause list is empty exactly when the
search term is empty and every filter value is empty; the clause list
holds the LIKE clause (iff the search term is non-empty) plus exactly
one equality clause per non-empty filter value; the produced query
string is the configured field list selection, the AND-joined WHERE
section when any clause exists, and always terminates with
`ORDER BY <searchField> ASC LIMIT <limit> OFFSET <offset>`; and an
unrecognized object type makes both resolvers fail with
`Unsupported object: <name>` with the world — hence every network
counter — unchanged, while a recognized type sends exactly the
constructed string to the data endpoint. -/
theorem claim_C6_query_construction (e : Jwt.Env) (er : RefreshFlow.Env)
    (o : Oracle) (w : World) (tc : CachedToken) (p : Payload)
    (cfg : ObjectConfig) (ot search : String)
    (filters : List (String × String)) (lim off : Nat) :
    (whereClausesOf cfg search filters = [] ↔
      search = "" ∧ filters.filter (fun fv => fv.2 ≠ "") = []) ∧
    ((whereClausesOf cfg search filters).length =
      (if search = "" then 0 else 1) + (filters.filter (fun fv => fv.2 ≠ "")).length) ∧
    (buildSoql cfg ot search filters lim off =
      ("SELECT " ++ String.intercalate (", ") cfg.fields ++ " FROM " ++ ot) ++
      (if whereClausesOf cfg search filters = [] then ""
        else " WHERE " ++ String.intercalate (" AND ") (whereClausesOf cfg search filters)) ++
      (" ORDER BY " ++ cfg.searchField ++ " ASC LIMIT " ++ toString lim ++
        " OFFSET " ++ toString off)) ∧
    (OBJECT_CONFIG p.objectType = none →
      Jwt.querySalesforce e o p w =
        (.failure ("Unsupported object: " ++ p.objectType), w) ∧
      RefreshFlow.querySalesforce er o p w =
        (.failure ("Unsupported object: " ++ p.objectType), w)) ∧
    (OBJECT_CONFIG p.objectType = some cfg → w.cache = some tc →
      w.now < tc.expiresAt → (o.dataAt w.dataCalls).ok = true →
      Jwt.querySalesforce e o p w =
        (.success ((o.dataAt w.dataCalls).json.records.getD [])
          ((o.dataAt w.dataCalls).json.totalSize.getD 0),
          { w with
              dataCalls := w.dataCalls + 1
              dataTokens := w.dataTokens ++ [tc.access_token]
              dataQueries := w.dataQueries ++
                [buildSoql cfg p.objectType (p.search.getD ("")) (p.filters.getD [])
                  (p.limit.getD 50) (p.offset.getD 0)] })) := by
  refine ⟨?_, ?_, ?_, ?_, ?_⟩
  · by_cases hs : search = "" <;>
      simp [whereClausesOf, hs, List.map_eq_nil_iff]
  · by_cases hs : search = "" <;>
      simp [whereClausesOf, hs, Nat.add_comm]
  · by_cases hcl : whereClausesOf cfg search filters = [] <;>
      simp [buildSoql, hcl, String.append_assoc, String.append_empty]
  · intro hnone
    constructor
    · simp [Jwt.querySalesforce, hnone]
    · simp [RefreshFlow.querySalesforce, hnone]
  · intro hconf hc hfresh hok
    simp [Jwt.querySalesforce, hconf, Jwt.executeSalesforceQuery,
      Jwt.getSalesforceAccessToken, hc, hfresh, apiFetchData, hok]

/-- C6 witness: an unknown object type (`Lead`) fails in both variants
without touching the world, and a `Contact` query with a fresh token
issues exactly the constructed default query. -/
theorem claim_C6_query_construction_witness :
    (Jwt.querySalesforce envJwtFull oracleDataBare
        ⟨("Lead"), none, none, none, none⟩ (World.init 500 (some freshTok)) =
      (.failure ("Unsupported object: " ++
        (⟨("Lead"), none, none, none, none⟩ : Payload).objectType),
        World.init 500 (some freshTok)) ∧
    RefreshFlow.querySalesforce envRefFull oracleDataBare
        ⟨("Lead"), none, none, none, none⟩ (World.init 500 (some freshTok)) =
      (.failure ("Unsupported object: " ++
        (⟨("Lead"), none, none, none, none⟩ : Payload).objectType),
        World.init 500 (some freshTok))) ∧
    (Jwt.querySalesforce envJwtFull oracleDataBare
        ⟨("Contact"), none, none, none, none⟩ (World.init 500 (some freshTok)) =
      (.success ((oracleDataBare.dataAt
          (World.init 500 (some freshTok)).dataCalls).json.records.getD [])
        ((oracleDataBare.dataAt
          (World.init 500 (some freshTok)).dataCalls).json.totalSize.getD 0),
        { World.init 500 (some freshTok) with
            dataCalls := (World.init 500 (some freshTok)).dataCalls + 1
            dataTokens := (World.init 500 (some freshTok)).dataTokens ++
              [freshTok.access_token]
            dataQueries := (World.init 500 (some freshTok)).dataQueries ++
              [buildSoql
                ⟨[("Id"), ("FirstName"), ("LastName"), ("Email"), ("Phone"), ("Account.Name")],
                  [("First Name"), ("Last Name"), ("Email"), ("Phone"), ("Account")],
                  ("LastName"), []⟩
                ((⟨("Contact"), none, none, none, none⟩ : Payload).objectType)
                ((⟨("Contact"), none, none, none, none⟩ : Payload).search.getD (""))
                ((⟨("Contact"), none, none, none, none⟩ : Payload).filters.getD [])
                ((⟨("Contact"), none, none, none, none⟩ : Payload).limit.getD 50)
                ((⟨("Contact"), none, none, none, none⟩ : Payload).offset.getD 0)] })) :=
  ⟨(claim_C6_query_construction envJwtFull envRefFull oracleDataBare
      (World.init 500 (some freshTok)) freshTok
      ⟨("Lead"), none, none, none, none⟩
      ⟨[("Id"), ("FirstName"), ("LastName"), ("Email"), ("Phone"), ("Account.Name")],
        [("First Name"), ("Last Name"), ("Email"), ("Phone"), ("Account")],
        ("LastName"), []⟩
      ("Contact") ("") [] 50 0).2.2.2.1 rfl,
    (claim_C6_query_construction envJwtFull envRefFull oracleDataBare
      (World.init 500 (some freshTok)) freshTok
      ⟨("Contact"), none, none, none, none⟩
      ⟨[("Id"), ("FirstName"), ("LastName"), ("Email"), ("Phone"), ("Account.Name")],
        [("First Name"), ("Last Name"), ("Email"), ("Phone"), ("Account")],
        ("LastName"), []⟩
      ("Contact") ("") [] 50 0).2.2.2.2 rfl rfl (by decide) rfl⟩

/-- C10 — Defaults and total success shape: omitting every optional
payload property is identical to passing `search = ""`,
`filters = {}`, `limit = 50`, `offset = 0`; and whenever the executor
returns a parsed body, the resolver's success value is
`records = data.records || []` and `totalSize = data.totalSize || 0`,
so the success shape is total over upstream responses — in both
variants. -/
theorem claim_C10_defaults_total (e : Jwt.Env) (er : RefreshFlow.Env) (o : Oracle)
    (ot : String) (w : World) (p : Payload) (cfg : ObjectConfig)
    (d : QueryData) (w1 : World) :
    (Jwt.querySalesforce e o ⟨ot, none, none, none, none⟩ w =
      Jwt.querySalesforce e o ⟨ot, some (""), some [], some 50, some 0⟩ w) ∧
    (RefreshFlow.querySalesforce er o ⟨ot, none, none, none, none⟩ w =
      RefreshFlow.querySalesforce er o ⟨ot, some (""), some [], some 50, some 0⟩ w) ∧
    (OBJECT_CONFIG p.objectType = some cfg →
      Jwt.executeSalesforceQuery e o
        (buildSoql cfg p.objectType (p.search.getD ("")) (p.filters.getD [])
          (p.limit.getD 50) (p.offset.getD 0)) w = (.ok d, w1) →
      Jwt.querySalesforce e o p w =
        (.success (d.records.getD []) (d.totalSize.getD 0), w1)) ∧
    (OBJECT_CONFIG p.objectType = some cfg →
      RefreshFlow.executeSalesforceQuery er o
        (buildSoql cfg p.objectType (p.search.getD ("")) (p.filters.getD [])
          (p.limit.getD 50) (p.offset.getD 0)) w = (.ok d, w1) →
      RefreshFlow.querySalesforce er o p w =
        (.success (d.records.getD []) (d.totalSize.getD 0), w1)) := by
  refine ⟨rfl, rfl, ?_, ?_⟩
  · intro hconf hex
    simp [Jwt.querySalesforce, hconf, hex]
  · intro hconf hex
    simp [RefreshFlow.querySalesforce, hconf, hex]

/-- C10 witness: a `Contact` query with every optional property
omitted, against an upstream body with neither `records` nor
`totalSize`, succeeds with the empty record list and zero total. -/
theorem claim_C10_defaults_total_witness :
    Jwt.querySalesforce envJwtFull oracleDataBare
        ⟨("Contact"), none, none, none, none⟩ (World.init 500 (some freshTok)) =
      (.success ((⟨none, none⟩ : QueryData).records.getD [])
        ((⟨none, none⟩ : QueryData).totalSize.getD 0),
        ⟨500, some freshTok, 0, 1, 0, 0, [], [("liveTok")],
          [buildSoql
            ⟨[("Id"), ("FirstName"), ("LastName"), ("Email"), ("Phone"), ("Account.Name")],
              [("First Name"), ("Last Name"), ("Email"), ("Phone"), ("Account")],
              ("LastName"), []⟩
            (("Contact")) (("")) [] 50 0]⟩) :=
  (claim_C10_defaults_total envJwtFull envRefFull oracleDataBare ("Contact")
    (World.init 500 (some freshTok)) ⟨("Contact"), none, none, none, none⟩
    ⟨[("Id"), ("FirstName"), ("LastName"), ("Email"), ("Phone"), ("Account.Name")],
      [("First Name"), ("Last Name"), ("Email"), ("Phone"), ("Account")],
      ("LastName"), []⟩
    ⟨none, none⟩
    ⟨500, some freshTok, 0, 1, 0, 0, [], [("liveTok")],
      [buildSoql
        ⟨[("Id"), ("FirstName"), ("LastName"), ("Email"), ("Phone"), ("Account.Name")],
          [("First Name"), ("Last Name"), ("Email"), ("Phone"), ("Account")],
          ("LastName"), []⟩
        (("Contact")) (("")) [] 50 0]⟩).2.2.1 rfl rfl

/-- C9 — Disconnect: `disconnectSalesforce` clears the cache
unconditionally, so — whatever the cache held before and however fresh
it was — the next `get()` goes down the refresh path: it starts exactly
one fresh authentication run. -/
theorem claim_C9_disconnect (e : Jwt.Env) (o : Oracle) (w : World) :
    (Jwt.disconnectSalesforce w).cache = none ∧
    Jwt.getSalesforceAccessToken e o (Jwt.disconnectSalesforce w) =
      Jwt.reauthenticate e o 2
        { Jwt.disconnectSalesforce w with
            refreshRuns := (Jwt.disconnectSalesforce w).refreshRuns + 1 } ∧
    (Jwt.getSalesforceAccessToken e o (Jwt.disconnectSalesforce w)).2.refreshRuns =
      w.refreshRuns + 1 := by
  have h2 : Jwt.getSalesforceAccessToken e o (Jwt.disconnectSalesforce w) =
      Jwt.reauthenticate e o 2
        { Jwt.disconnectSalesforce w with
            refreshRuns := (Jwt.disconnectSalesforce w).refreshRuns + 1 } :=
    jwt_get_stale e o (Jwt.disconnectSalesforce w) rfl
  refine ⟨rfl, h2, ?_⟩
  rw [h2, jwt_reauth_refreshRuns]
  rfl

/-- C8 witness: three failed JWT attempts surface the third error with
the cache cleared; three transient-then-failed refresh-token attempts
surface the third error with the expired cache entry still present. -/
theorem claim_C8_exhausted_amended_witness :
    ((Jwt.reauthenticate envJwtFull oracleAuthBoom 2
      (World.init 200 (some staleTok))).1 =
      .error (oracleAuthBoom.authAt ((World.init 200 (some staleTok)).authCalls + 2)).body ∧
    (Jwt.reauthenticate envJwtFull oracleAuthBoom 2
      (World.init 200 (some staleTok))).2.cache = none) ∧
    ((RefreshFlow.refreshAccessToken envRefFull oracleAuthTransient 2
      (World.init 200 (some staleTok))).1 =
      .error ("Salesforce Auth Failed: " ++ (oracleAuthTransient.authAt
        ((World.init 200 (some staleTok)).authCalls + 2)).body) ∧
    (RefreshFlow.refreshAccessToken envRefFull oracleAuthTransient 2
      (World.init 200 (some staleTok))).2.cache =
      (World.init 200 (some staleTok)).cache) :=
  ⟨(claim_C8_exhausted_amended envJwtFull envRefFull oracleAuthBoom
      (World.init 200 (some staleTok)) (("cid"), ("user@co"), ("pem")) rfl).1
      rfl rfl rfl,
    (claim_C8_exhausted_amended envJwtFull envRefFull oracleAuthTransient
      (World.init 200 (some staleTok)) (("cid"), ("user@co"), ("pem")) rfl).2
      rfl rfl (by decide) rfl rfl (by decide) rfl⟩

end Salesforce
